import Mathlib

/-!
Shallow embedding of `prometheus_raritan_pdu_exporter/structures.py`
(Raritan PDU exporter). Python objects become Lean structures, in-place
mutation becomes explicit state passing, Python `None` becomes `Option.none`
(or the `PyVal.none` constructor for dynamically typed JSON values), and
operations that can raise become `Option`/`Except`.
-/

namespace Raritan

/-- A dynamically typed value as it arrives from the JSON-RPC payload
(`_ret_['value']` of a sensor reading).  `num` models a Python `int`/`float`
reading (floating-point representation itself is not modelled); `bool` is
kept separate because Python `bool` is a subclass of `int`. -/
inductive PyVal where
  | none
  | num (n : Int)
  | str (s : String)
  | bool (b : Bool)
deriving DecidableEq, Repr, Inhabited

/-- `isinstance(v, (int, float))` for a `PyVal`.  Python `bool` is a
subclass of `int`, so booleans satisfy the check. -/
def isNumberInstance : PyVal → Bool
  | .num _ => true
  | .bool _ => true
  | _ => false

/-- Python truthiness of an optional string (`None` and `''` are falsy). -/
def truthy : Option String → Bool
  | Option.none => false
  | some s => s ≠ ""

/-- `rid.rsplit('/', 1)[-1]`: the substring after the last `'/'`, or the
whole string when there is no `'/'`. -/
def rsplitLast (s : String) : String :=
  String.mk ((s.data.reverse.takeWhile (fun c => c ≠ '/')).reverse)

/-- Python list indexing semantics: a (possibly negative) `Int` index into a
list of length `len`, returning the effective `Nat` position, or `Option.none`
when Python would raise `IndexError`. -/
def pyIdx (len : Nat) (i : Int) : Option Nat :=
  if 0 ≤ i ∧ i < (len : Int) then some i.toNat
  else if 0 ≤ i + (len : Int) ∧ i < 0 then some (i + (len : Int)).toNat
  else Option.none

/-- The open-ended `**kwargs` bags passed to the entity `update` methods,
restricted to the keys the code actually reads (`label`, `receptacleType`,
`plugType` from `getMetaData`; `name` from `getSettings`).  A missing key is
`Option.none`, matching `kwargs.get(key, None)`. -/
structure Kwargs where
  label : Option String
  receptacleType : Option String
  plugType : Option String
  name : Option String
deriving DecidableEq, Repr

/-- The kwargs bag with every key absent. -/
def Kwargs.empty : Kwargs :=
  { label := Option.none, receptacleType := Option.none,
    plugType := Option.none, name := Option.none }

/-- `Connector` from `structures.py` (inlet, outlet, or device slot).  The
non-owning `parent` back-reference to a `PDU` is omitted: it is never read by
the connector's own methods. -/
structure Connector where
  rid : String
  type : String
  get_sensors : String
  socket : Option String
  label : String
  custom_label : String
deriving DecidableEq, Repr, Inhabited

namespace Connector

/-- `Connector.method_by_type`, as a lookup that is `Option.none` exactly
where Python raises `KeyError`. -/
def method_by_type : String → Option String
  | "inlet" => some "getSensors"
  | "outlet" => some "getSensors"
  | "device" => some "getDevice"
  | _ => Option.none

/-- `Connector.__init__`.  Returns `Option.none` when
`method_by_type[type_]` raises (an unknown connector type). -/
def init (rid : String) (type_ : String) : Option Connector :=
  (method_by_type type_).map (fun m =>
    { rid := rid, type := type_, get_sensors := m, socket := Option.none,
      label := rsplitLast rid, custom_label := rsplitLast rid })

/-- `Connector.update(method, **kwargs)`. -/
def update (c : Connector) (method : String) (kw : Kwargs) : Connector :=
  if method = "metadata" then
    let c1 :=
      if truthy kw.label then
        let c0 :=
          if c.custom_label = c.label then
            { c with custom_label := kw.label.getD "" }
          else c
        { c0 with label := kw.label.getD "" }
      else c
    if c1.type = "outlet" then { c1 with socket := kw.receptacleType }
    else if c1.type = "inlet" then { c1 with socket := kw.plugType }
    else c1
  else if method = "settings" then
    match kw.name with
    | some n => if n ≠ "" ∧ n ≠ "''" then { c with custom_label := n } else c
    | Option.none => c
  else c

end Connector

/-- `Pole` from `structures.py`.  The non-owning `inlet` and `parent`
back-references are kept only through the fields the constructor reads
(`inlet.label`). -/
structure Pole where
  type : String
  label : String
  custom_label : String
  line : Int
  node_id : Int
deriving DecidableEq, Repr

/-- `Pole.__init__`. -/
def Pole.init (label : String) (line : Int) (node_id : Int)
    (inlet : Connector) : Pole :=
  { type := "pole", label := inlet.label,
    custom_label :=
      if label ≠ "" ∧ label ≠ "''" then label
      else "L" ++ toString (line + 1),
    line := line, node_id := node_id }

/-- `Sensor` from `structures.py`.  `value`/`timestamp` start as `None`;
`metric` and `unit` default to the strings `'unspecified'` and `'none'`.
The non-owning `parent` back-reference is kept as the parent's label, the
only part of it that `DebugNullSensors.add_sensor` reads. -/
structure Sensor where
  rid : String
  interface : String
  parentLabel : String
  name : Option String
  metric : Option String
  unit : Option String
  longname : Option String
  value : PyVal
  timestamp : Option Int
deriving DecidableEq, Repr, Inhabited

/-- `Sensor.__init__` with the defaulted optional parameters. -/
def Sensor.init (rid : String) (interface : String) (parentLabel : String)
    (name : Option String) : Sensor :=
  { rid := rid, interface := interface, parentLabel := parentLabel,
    name := name, metric := some "unspecified", unit := some "none",
    longname := Option.none, value := PyVal.none,
    timestamp := Option.none }

/-- `Sensor.set_value(value, timestamp)`. -/
def Sensor.set_value (s : Sensor) (value : PyVal) (timestamp : Option Int) :
    Sensor :=
  { s with value := value, timestamp := timestamp }

/-- `PDU.is_null(sensor)`: `False if isinstance(sensor.value, (int, float))
or sensor.value is not None else True`. -/
def PDU.is_null (s : Sensor) : Bool :=
  if isNumberInstance s.value ∨ s.value ≠ PyVal.none then false else true

/-- `DebugNullSensors`: the per-cycle snapshot of null sensors.  Each entry
is `(sensor.parent.label, sensor.name, sensor.value)`. -/
structure DebugNullSensors where
  sensors : List (String × Option String × PyVal)
  responses : Nat
deriving DecidableEq, Repr

/-- `DebugNullSensors.add_sensor`. -/
def DebugNullSensors.add_sensor (d : DebugNullSensors) (s : Sensor) :
    DebugNullSensors :=
  { d with sensors := d.sensors ++ [(s.parentLabel, s.name, s.value)] }

/-- `DebugNullSensors.diff(new)`: `list(set(new.sensors) - set(self.sensors))`.
The Python result is that set-difference rendered as a list in unspecified
set-iteration order; we model the returned collection as the `Finset`. -/
def DebugNullSensors.diff (self new : DebugNullSensors) :
    Finset (String × Option String × PyVal) :=
  new.sensors.toFinset \ self.sensors.toFinset

/-- The regex class `[A-Z]` (the inputs are ASCII identifiers). -/
def isAZupper (c : Char) : Bool := 'A' ≤ c ∧ c ≤ 'Z'

/-- The regex class `[a-z]`. -/
def isAZlower (c : Char) : Bool := 'a' ≤ c ∧ c ≤ 'z'

/-- The regex class `[a-z0-9]`. -/
def isLowerDigit (c : Char) : Bool := isAZlower c ∨ ('0' ≤ c ∧ c ≤ '9')

/-- Structural worker for `sub1`, recursing on a fuel bound so that the
function reduces definitionally; the fuel branch is unreachable whenever
`fuel ≥ l.length` (the way `sub1` calls it). -/
def sub1Go : Nat → List Char → List Char
  | _, [] => []
  | _, [c] => [c]
  | 0, l => l
  | fuel + 1, c :: d :: rest2 =>
    if isAZupper d ∧ rest2.head?.any isAZlower then
      c :: '_' :: d ::
        (rest2.takeWhile isAZlower ++ sub1Go fuel (rest2.dropWhile isAZlower))
    else
      c :: sub1Go fuel (d :: rest2)

/-- One left-to-right, non-overlapping pass of
`re.sub('(.)([A-Z][a-z]+)', r'\1_\2', label)` over the character list:
an underscore is inserted between any character and an uppercase letter
followed by at least one lowercase letter, and scanning resumes after the
greedy lowercase run of the match. -/
def sub1 (l : List Char) : List Char := sub1Go l.length l

/-- Structural worker for `sub2`, fuelled like `sub1Go`. -/
def sub2Go : Nat → List Char → List Char
  | _, [] => []
  | _, [c] => [c]
  | 0, l => l
  | fuel + 1, c :: d :: rest2 =>
    if isLowerDigit c ∧ isAZupper d then
      c :: '_' :: d :: sub2Go fuel rest2
    else
      c :: sub2Go fuel (d :: rest2)

/-- One left-to-right, non-overlapping pass of
`re.sub('([a-z0-9])([A-Z])', r'\1_\2', label)`: an underscore is inserted
between a lowercase letter or digit and an uppercase letter; the match
consumes both characters. -/
def sub2 (l : List Char) : List Char := sub2Go l.length l

/-- `Sensor.camel_to_snake`: the two regex substitution passes followed by
`.lower()`. -/
def Sensor.camel_to_snake (label : String) : String :=
  String.mk ((sub2 (sub1 label.data)).map Char.toLower)

/-- The `kwargs['type']` dict of a sensor `getMetaData` response:
`{'type': <int code>, 'unit': <int code>}`; a missing key defaults to `0`
via `.get(..., 0)`. -/
structure TypeKw where
  type : Nat
  unit : Nat
deriving DecidableEq, Repr

/-- `Sensor.update(**kwargs)`.

Modelled from the spec (tables only): `SENSORS_TYPES` and `SENSORS_UNITS`
live in the repository's `globals` module, which is not under `src/`; the
spec describes them as fixed integer-code lookup tables decoding `metric`
and `unit`.  They are passed here as total decoding functions
(`sensorsTypes`, `sensorsUnits`), where a `unit` entry may be the Python
`None` (`Option.none`).  Everything else is translated from
`structures.py`. -/
def Sensor.update (sensorsTypes : Nat → String)
    (sensorsUnits : Nat → Option String) (s : Sensor) (kw : Option TypeKw) :
    Sensor :=
  let tIdx := match kw with
    | some k => k.type
    | Option.none => 0
  let uIdx := match kw with
    | some k => k.unit
    | Option.none => 0
  let metric := sensorsTypes tIdx
  let unit := sensorsUnits uIdx
  let name := match s.name with
    | some n => n
    | Option.none => metric
  let base := "raritan_sensors_" ++ Sensor.camel_to_snake name
  let longname :=
    if unit ≠ Option.none ∧ unit ≠ some "none" then
      base ++ "_in_" ++ Sensor.camel_to_snake (unit.getD "")
    else base
  { s with metric := some metric, unit := unit, name := some name,
           longname := some longname }

/-- The subset of `urllib.parse.ParseResult` that `PDU.__init__` reads
(`scheme`, `netloc`) plus the remaining text as `path`.  Inputs are
restricted to URLs without `;`, `?` or `#` parts, which the exporter never
uses. -/
structure ParseResult where
  scheme : String
  netloc : String
  path : String
deriving DecidableEq, Repr

/-- `ParseResult._replace(scheme=...)`: namedtuples are immutable, so this
returns a fresh result and leaves the receiver unchanged. -/
def ParseResult.replaceScheme (p : ParseResult) (scheme : String) :
    ParseResult :=
  { p with scheme := scheme }

/-- Characters allowed in a URL scheme (`scheme_chars` of `urllib.parse`). -/
def isSchemeChar (c : Char) : Bool :=
  c.isAlpha ∨ c.isDigit ∨ c = '+' ∨ c = '-' ∨ c = '.'

/-- Split a character list at the first `':'`, if any. -/
def splitOnColon : List Char → Option (List Char × List Char)
  | [] => Option.none
  | c :: rest =>
    if c = ':' then some ([], rest)
    else (splitOnColon rest).map (fun p => (c :: p.1, p.2))

/-- `urllib.parse.urlparse` restricted to scheme/netloc/path: the text
before the first `':'` is the (lowercased) scheme when it starts with a
letter and uses only scheme characters; a netloc is parsed only when the
remainder starts with `//`. -/
def urlparse (location : String) : ParseResult :=
  let cs := location.data
  let sp :=
    match splitOnColon cs with
    | some (pre, post) =>
      if pre ≠ ([] : List Char) ∧ pre.head?.any Char.isAlpha ∧
          pre.all isSchemeChar then
        (pre.map Char.toLower, post)
      else (([] : List Char), cs)
    | Option.none => (([] : List Char), cs)
  match sp.2 with
  | '/' :: '/' :: rest =>
    let stop := fun c => c = '/' ∨ c = '?' ∨ c = '#'
    { scheme := String.mk sp.1,
      netloc := String.mk (rest.takeWhile (fun c => ¬ stop c)),
      path := String.mk (rest.dropWhile (fun c => ¬ stop c)) }
  | rest => { scheme := String.mk sp.1, netloc := "", path := String.mk rest }

/-- `url[:2] == '//'`. -/
def startsDoubleSlash (s : String) : Bool :=
  match s.data with
  | '/' :: '/' :: _ => true
  | _ => false

/-- `url[:1] == '/'`. -/
def startsSlash (s : String) : Bool :=
  match s.data with
  | '/' :: _ => true
  | _ => false

/-- `urllib.parse.urlunparse` on the same restricted components. -/
def urlunparse (p : ParseResult) : String :=
  let url :=
    if p.netloc ≠ "" ∨ startsDoubleSlash p.path then
      "//" ++ p.netloc ++
        (if p.path ≠ "" ∧ ¬ startsSlash p.path then "/" ++ p.path
         else p.path)
    else p.path
  if p.scheme ≠ "" then p.scheme ++ ":" ++ url else url

/-- The fields of a `PDU` set up by `PDU.__init__` and mutated by discovery
and polling.  The HTTP client, retry adapter and logger are transport
concerns outside the embedding. -/
structure PDU where
  location : String
  name : String
  connectors : List Connector
  poles : List Pole
  sensors : List Sensor
deriving DecidableEq, Repr

/-- `PDU.__init__(location, name, ...)` (the state part).  Note the source
line `self.location._replace(scheme='http')`: `_replace` returns a fresh
namedtuple whose result is not assigned, so `self.location` keeps its
original (possibly empty) scheme. -/
def PDU.init (location : String) (name : Option String) : PDU :=
  let loc := urlparse location
  let loc :=
    if loc.scheme = "" then
      let _discarded := loc.replaceScheme "http"
      loc
    else loc
  let nm := match name with
    | some n => n
    | Option.none => loc.netloc
  { location := urlunparse loc, name := nm,
    connectors := [], poles := [], sensors := [] }

/-- One sub-request of the bulk read built by `read_sensors`. -/
structure ReadReq where
  rid : String
  method : String
  id : Nat
deriving DecidableEq, Repr

/-- One sub-response of the bulk read: the echoed correlation id (an
arbitrary integer as far as the transport contract goes) and the reading
payload (`_ret_['value']`, `_ret_['timestamp']`). -/
structure ReadResp where
  id : Int
  value : PyVal
  timestamp : Int
deriving DecidableEq, Repr

/-- `PDU.clear_sensors`: every sensor value is reset to `None` with the
current wall-clock time `now`. -/
def PDU.clear_sensors (sensors : List Sensor) (now : Int) : List Sensor :=
  sensors.map (fun s => s.set_value PyVal.none (some now))

/-- The bulk query built by `read_sensors`.

Modelled from the spec (interface sets only): `SENSORS_NUMERIC` and
`SENSORS_STATE` live in the repository `globals` module, which is not under
`src/`; the spec describes them as the interface classes mapped to
`getReading`/`getState`.  They are passed as the membership predicates
`isNumeric`/`isState`; sensors matching neither are silently skipped
(`continue`). -/
def PDU.readQuery (isNumeric isState : String → Bool)
    (sensors : List Sensor) : List ReadReq :=
  sensors.enum.filterMap (fun p =>
    if isNumeric p.2.interface then
      some { rid := p.2.rid, method := "getReading", id := p.1 }
    else if isState p.2.interface then
      some { rid := p.2.rid, method := "getState", id := p.1 }
    else Option.none)

/-- The response loop of `read_sensors`:
`self.sensors[int(sensor_id)].set_value(value, timestamp)` for each
sub-response, with Python list indexing; an id that maps to no position
raises `IndexError`, modelled as `Except.error`. -/
def applyReadResponses : List Sensor → List ReadResp → Except String (List Sensor)
  | sensors, [] => Except.ok sensors
  | sensors, r :: rs =>
    match pyIdx sensors.length r.id with
    | some j =>
      applyReadResponses
        (sensors.set j ((sensors.getD j default).set_value r.value
          (some r.timestamp))) rs
    | Option.none => Except.error "IndexError: list index out of range"

/-- `PDU.read_sensors`: clear all sensors, build the bulk query, send it
(`transport` stands for `self.send`, which may raise), and apply the
sub-responses.  A transport exception is caught (`except Exception`) and
only logged; an `IndexError` inside the response loop is not caught and
propagates. -/
def PDU.read_sensors (isNumeric isState : String → Bool)
    (sensors : List Sensor) (now : Int)
    (transport : List ReadReq → Except String (List ReadResp)) :
    Except String (List Sensor) :=
  let cleared := PDU.clear_sensors sensors now
  match transport (PDU.readQuery isNumeric isState cleared) with
  | Except.error _ => Except.ok cleared
  | Except.ok resps => applyReadResponses cleared resps

/-- One enumeration sub-response of connector discovery: the echoed
request id (the connector type tag from `model_requests`) and the list of
rids under `_ret_`. -/
structure EnumResp where
  tag : String
  rids : List String
deriving DecidableEq, Repr

/-- Applicative sequencing of a list comprehension whose body can raise:
`Option.none` as soon as one element does. -/
def optMap {α β : Type} (f : α → Option β) : List α → Option (List β)
  | [] => some []
  | a :: l =>
    match f a, optMap f l with
    | some b, some l2 => some (b :: l2)
    | _, _ => Option.none

/-- The connector-construction comprehension of `PDU._get_connectors`: one
`Connector(rid=ret['rid'], type_=resp['json']['id'])` per returned rid,
across the enumeration sub-responses in response order. -/
def getConnectors (resps : List EnumResp) : Option (List Connector) :=
  optMap (fun p => Connector.init p.1 p.2)
    (resps.flatMap (fun r => r.rids.map (fun rid => (rid, r.tag))))

/-- The `getMetaData` batch of `_get_connectors`: one `(rid, correlation
id)` pair per non-device connector, ids assigned by
`enumerate(self.connectors)`. -/
def metaDataRequests (cs : List Connector) : List (String × Nat) :=
  cs.enum.filterMap (fun p =>
    if p.2.type ≠ "device" then some (p.2.rid, p.1) else Option.none)

/-- The `getSettings` batch of `_get_connectors`: one pair per connector. -/
def settingsRequests (cs : List Connector) : List (String × Nat) :=
  cs.enum.map (fun p => (p.2.rid, p.1))

/-- `self.connectors[resp['json']['id']].update(method, **kw)`: route one
enrichment sub-response back to the connector at the position given by its
correlation id (Python list indexing; `Option.none` is `IndexError`). -/
def routeUpdate (cs : List Connector) (id : Int) (method : String)
    (kw : Kwargs) : Option (List Connector) :=
  match pyIdx cs.length id with
  | some j => some (cs.set j ((cs.getD j default).update method kw))
  | Option.none => Option.none

end Raritan

namespace Raritan

/-- C10: for every `Connector` constructed with remote identifier `rid` and
type in `{inlet, outlet, device}`, immediately after construction `label`
equals the final `'/'`-separated segment of `rid`, `custom_label` equals
`label`, and `socket` is `None`. -/
theorem connector_init_defaults (rid type_ : String)
    (h : type_ = "inlet" ∨ type_ = "outlet" ∨ type_ = "device") :
    (Connector.init rid type_).map Connector.label = some (rsplitLast rid) ∧
    (Connector.init rid type_).map Connector.custom_label
      = some (rsplitLast rid) ∧
    (Connector.init rid type_).map Connector.socket
      = some (Option.none : Option String) := by
  rcases h with h | h | h <;> subst h <;>
    exact ⟨rfl, rfl, rfl⟩

/-- Witness for C10 at a concrete outlet rid. -/
theorem connector_init_defaults_witness :
    (Connector.init "/model/pdu/0/outlet/3" "outlet").map Connector.label
      = some (rsplitLast "/model/pdu/0/outlet/3") ∧
    (Connector.init "/model/pdu/0/outlet/3" "outlet").map Connector.custom_label
      = some (rsplitLast "/model/pdu/0/outlet/3") ∧
    (Connector.init "/model/pdu/0/outlet/3" "outlet").map Connector.socket
      = some (Option.none : Option String) :=
  connector_init_defaults "/model/pdu/0/outlet/3" "outlet" (Or.inr (Or.inl rfl))

/-- C9: a pole constructed from a pole record takes the record's label as
`custom_label` when that label is truthy and not the `"''"` sentinel, and
otherwise synthesizes the fallback `L{line+1}`; in particular `line = 2`
with an empty label yields `"L3"`. -/
theorem pole_init_custom_label (label : String) (line node_id : Int)
    (inlet : Connector) :
    ((label ≠ "" ∧ label ≠ "''") →
      (Pole.init label line node_id inlet).custom_label = label) ∧
    ((label = "" ∨ label = "''") →
      (Pole.init label line node_id inlet).custom_label
        = "L" ++ toString (line + 1)) ∧
    (label = "" → line = 2 →
      (Pole.init label line node_id inlet).custom_label = "L3") := by
  refine ⟨fun h => ?_, fun h => ?_, fun h1 h2 => ?_⟩
  · simp [Pole.init, h.1, h.2]
  · rcases h with h | h <;> simp [Pole.init, h]
  · subst h1; subst h2; rfl

/-- Witness for C9: `line = 2`, empty label, concrete inlet. -/
theorem pole_init_custom_label_witness :
    (Pole.init "" 2 7
      ⟨"/model/inlet/I1", "inlet", "getSensors", Option.none, "I1", "I1"⟩
      ).custom_label = "L3" :=
  (pole_init_custom_label "" 2 7
    ⟨"/model/inlet/I1", "inlet", "getSensors", Option.none, "I1", "I1"⟩
    ).2.2 rfl rfl

/-- C7: `PDU.is_null` returns `True` exactly when the sensor's value is the
absent value `None` (in particular not a number), and `False` for every
numeric value, including zero. -/
theorem is_null_iff (s : Sensor) (n : Int) :
    (PDU.is_null s = true ↔ s.value = PyVal.none) ∧
    PDU.is_null { s with value := PyVal.num n } = false ∧
    PDU.is_null { s with value := PyVal.num 0 } = false := by
  refine ⟨?_, rfl, rfl⟩
  cases h : s.value <;> simp [PDU.is_null, isNumberInstance, h]

/-- C8: `old.diff(new)` is exactly the set of
`(connector_label, sensor_name, value)` tuples present in `new` and absent
in `old`; with `A = {("Outlet 1", "current", None)}` and
`B = A ∪ {("Outlet 2", "voltage", None)}`, `diff(A, B)` is the singleton
`{("Outlet 2", "voltage", None)}` and `diff(A, A)` is empty. -/
theorem debug_null_sensors_diff (old new : DebugNullSensors)
    (x : String × Option String × PyVal) :
    (x ∈ old.diff new ↔ x ∈ new.sensors ∧ x ∉ old.sensors) ∧
    DebugNullSensors.diff ⟨[("Outlet 1", some "current", PyVal.none)], 1⟩
      ⟨[("Outlet 1", some "current", PyVal.none),
        ("Outlet 2", some "voltage", PyVal.none)], 2⟩
      = {("Outlet 2", some "voltage", PyVal.none)} ∧
    DebugNullSensors.diff ⟨[("Outlet 1", some "current", PyVal.none)], 1⟩
      ⟨[("Outlet 1", some "current", PyVal.none)], 1⟩ = ∅ := by
  refine ⟨?_, by decide, by decide⟩
  simp [DebugNullSensors.diff]

/-- C2: starting from a connector whose `custom_label` still equals `label`,
a metadata update with truthy label `L` sets both `label` and `custom_label`
to `L`; a subsequent settings update with name `N` overwrites `custom_label`
with `N` exactly when `N` is truthy and not the `"''"` sentinel, and leaves
it at `L` otherwise. -/
theorem connector_label_resolution (c : Connector) (L N : String)
    (hc : c.custom_label = c.label) (hL : L ≠ "") :
    (c.update "metadata" { Kwargs.empty with label := some L }).label = L ∧
    (c.update "metadata" { Kwargs.empty with label := some L }).custom_label
      = L ∧
    ((N ≠ "" ∧ N ≠ "''") →
      ((c.update "metadata" { Kwargs.empty with label := some L }).update
        "settings" { Kwargs.empty with name := some N }).custom_label = N) ∧
    (¬(N ≠ "" ∧ N ≠ "''") →
      ((c.update "metadata" { Kwargs.empty with label := some L }).update
        "settings" { Kwargs.empty with name := some N }).custom_label = L) := by
  have hmeta :
      (c.update "metadata" { Kwargs.empty with label := some L }).label = L ∧
      (c.update "metadata" { Kwargs.empty with label := some L }).custom_label
        = L := by
    simp only [Connector.update, Kwargs.empty, truthy, hL, hc]
    repeat' split
    all_goals first
      | exact ⟨rfl, rfl⟩
      | simp_all
  refine ⟨hmeta.1, hmeta.2, fun h => ?_, fun h => ?_⟩
  · simp [Connector.update, h.1, h.2]
  · conv_lhs => rw [Connector.update]
    rw [if_neg (by decide), if_pos rfl]
    simp only
    rw [if_neg h]
    exact hmeta.2


/-- Witness for C2: metadata label `"Outlet 1"` followed by settings name
`""` keeps `"Outlet 1"`; followed by settings name `"Server Rack A"` it
becomes `"Server Rack A"`. -/
theorem connector_label_resolution_witness :
    ((Connector.update
        (Connector.update
          ⟨"/model/outlet/0", "outlet", "getSensors", Option.none, "0", "0"⟩
          "metadata" { Kwargs.empty with label := some "Outlet 1" })
        "settings" { Kwargs.empty with name := some "" }).custom_label
      = "Outlet 1") ∧
    ((Connector.update
        (Connector.update
          ⟨"/model/outlet/0", "outlet", "getSensors", Option.none, "0", "0"⟩
          "metadata" { Kwargs.empty with label := some "Outlet 1" })
        "settings" { Kwargs.empty with name := some "Server Rack A" }
        ).custom_label = "Server Rack A") := by
  constructor
  · exact (connector_label_resolution
      ⟨"/model/outlet/0", "outlet", "getSensors", Option.none, "0", "0"⟩
      "Outlet 1" "" rfl (by decide)).2.2.2 (by decide)
  · exact (connector_label_resolution
      ⟨"/model/outlet/0", "outlet", "getSensors", Option.none, "0", "0"⟩
      "Outlet 1" "Server Rack A" rfl (by decide)).2.2.1 (by decide)

/-- C3: after `Sensor.update`, a sensor whose `name` was `None` takes the
decoded metric as its name; `longname` is `raritan_sensors_` followed by
the snake_case of the name, suffixed with `_in_` plus the snake_case of the
unit exactly when the decoded unit is neither `None` nor `"none"`.  In
particular name `activePower` with unit `watt` yields
`raritan_sensors_active_power_in_watt`, and unit `"none"` yields no
suffix. -/
theorem sensor_update_longname (sensorsTypes : Nat → String)
    (sensorsUnits : Nat → Option String) (s : Sensor) (kw : Option TypeKw) :
    (s.name = Option.none →
      (Sensor.update sensorsTypes sensorsUnits s kw).name
        = some (sensorsTypes ((kw.map TypeKw.type).getD 0))) ∧
    (∀ nm, (Sensor.update sensorsTypes sensorsUnits s kw).name = some nm →
      (Sensor.update sensorsTypes sensorsUnits s kw).longname =
        some (if sensorsUnits ((kw.map TypeKw.unit).getD 0) ≠ Option.none ∧
                sensorsUnits ((kw.map TypeKw.unit).getD 0) ≠ some "none"
          then ("raritan_sensors_" ++ Sensor.camel_to_snake nm) ++ "_in_"
                ++ Sensor.camel_to_snake
                  ((sensorsUnits ((kw.map TypeKw.unit).getD 0)).getD "")
          else "raritan_sensors_" ++ Sensor.camel_to_snake nm)) ∧
    (s.name = some "activePower" →
      sensorsUnits ((kw.map TypeKw.unit).getD 0) = some "watt" →
      (Sensor.update sensorsTypes sensorsUnits s kw).longname
        = some "raritan_sensors_active_power_in_watt") ∧
    (s.name = some "activePower" →
      sensorsUnits ((kw.map TypeKw.unit).getD 0) = some "none" →
      (Sensor.update sensorsTypes sensorsUnits s kw).longname
        = some "raritan_sensors_active_power") := by
  have hname : ∀ nm, (Sensor.update sensorsTypes sensorsUnits s kw).name
      = some nm →
      (Sensor.update sensorsTypes sensorsUnits s kw).longname =
        some (if sensorsUnits ((kw.map TypeKw.unit).getD 0) ≠ Option.none ∧
                sensorsUnits ((kw.map TypeKw.unit).getD 0) ≠ some "none"
          then ("raritan_sensors_" ++ Sensor.camel_to_snake nm) ++ "_in_"
                ++ Sensor.camel_to_snake
                  ((sensorsUnits ((kw.map TypeKw.unit).getD 0)).getD "")
          else "raritan_sensors_" ++ Sensor.camel_to_snake nm) := by
    intro nm hnm
    simp only [Sensor.update] at hnm ⊢
    cases kw <;> cases hs : s.name <;> simp_all
  refine ⟨fun h => ?_, hname, fun h hu => ?_, fun h hu => ?_⟩
  · simp only [Sensor.update, h]
    cases kw <;> rfl
  · have hn : (Sensor.update sensorsTypes sensorsUnits s kw).name
        = some "activePower" := by
      simp only [Sensor.update, h]
    rw [hname "activePower" hn, hu]
    norm_num
    decide
  · have hn : (Sensor.update sensorsTypes sensorsUnits s kw).name
        = some "activePower" := by
      simp only [Sensor.update, h]
    rw [hname "activePower" hn, hu]
    norm_num
    decide

/-- Witness for C3 at concrete decoding tables and sensors. -/
theorem sensor_update_longname_witness :
    (Sensor.update (fun _ => "activePower") (fun _ => some "watt")
      (Sensor.init "r" "numeric" "Outlet 1" (some "activePower"))
      (some ⟨5, 8⟩)).longname
      = some "raritan_sensors_active_power_in_watt" ∧
    (Sensor.update (fun _ => "activePower") (fun _ => some "none")
      (Sensor.init "r" "numeric" "Outlet 1" (some "activePower"))
      (some ⟨5, 0⟩)).longname = some "raritan_sensors_active_power" := by
  constructor
  · exact (sensor_update_longname (fun _ => "activePower")
      (fun _ => some "watt")
      (Sensor.init "r" "numeric" "Outlet 1" (some "activePower"))
      (some ⟨5, 8⟩)).2.2.1 rfl rfl
  · exact (sensor_update_longname (fun _ => "activePower")
      (fun _ => some "none")
      (Sensor.init "r" "numeric" "Outlet 1" (some "activePower"))
      (some ⟨5, 0⟩)).2.2.2 rfl rfl


/-- Helper: `optMap` preserves length when it succeeds. -/
theorem optMap_length {α β : Type} (f : α → Option β) :
    ∀ (l : List α) (l2 : List β), optMap f l = some l2 → l2.length = l.length
  | [], l2, h => by
    simp only [optMap, Option.some.injEq] at h
    simp [← h]
  | a :: t, l2, h => by
    rw [optMap] at h
    cases hf : f a <;> rw [hf] at h
    · simp at h
    · cases ho : optMap f t <;> rw [ho] at h
      · simp at h
      · simp only [Option.some.injEq] at h
        have ht := optMap_length f t _ ho
        simp [← h, ht]

/-- Helper: the connector at position `i` (non-device) appears in the
`getMetaData` batch with correlation id `i`. -/
theorem mem_metaDataRequests (cs : List Connector) (i : Nat)
    (hi : i < cs.length) (hdev : (cs.get ⟨i, hi⟩).type ≠ "device") :
    ((cs.get ⟨i, hi⟩).rid, i) ∈ metaDataRequests cs := by
  unfold metaDataRequests
  rw [List.mem_filterMap]
  refine ⟨(i, cs.get ⟨i, hi⟩), ?_, ?_⟩
  · rw [List.mem_enum_iff_getElem?]
    simp [List.getElem?_eq_getElem, hi]
  · have hdev2 : ¬cs[i].type = "device" := by simpa using hdev
    simp [hdev2]

/-- Helper: the connector at position `i` appears in the `getSettings`
batch with correlation id `i`. -/
theorem mem_settingsRequests (cs : List Connector) (i : Nat)
    (hi : i < cs.length) :
    ((cs.get ⟨i, hi⟩).rid, i) ∈ settingsRequests cs := by
  unfold settingsRequests
  rw [List.mem_map]
  refine ⟨(i, cs.get ⟨i, hi⟩), ?_, rfl⟩
  rw [List.mem_enum_iff_getElem?]
  simp [List.getElem?_eq_getElem, hi]

/-- Helper: routing a response whose correlation id is the in-range
position `i` updates exactly the connector at position `i`. -/
theorem routeUpdate_at (cs : List Connector) (i : Nat) (hi : i < cs.length)
    (method : String) (kw : Kwargs) :
    routeUpdate cs (i : Int) method kw
      = some (cs.set i ((cs.get ⟨i, hi⟩).update method kw)) := by
  unfold routeUpdate
  have hp : pyIdx cs.length (i : Int) = some i := by
    unfold pyIdx
    rw [if_pos]
    · simp
    · exact ⟨Int.natCast_nonneg i, by exact_mod_cast hi⟩
  rw [hp]
  simp only [Option.some.injEq]
  congr 2
  rw [List.getD_eq_get cs default hi]

/-- C1: after the connector-discovery phase, the number of connectors is
the total number of rids across the three enumeration sub-responses, and
the connector at position `i` is the one whose `getMetaData` (non-device)
and `getSettings` sub-requests carry correlation id `i`, which is also the
position its responses are routed back to. -/
theorem connector_discovery_correlation (r1 r2 r3 : EnumResp)
    (cs : List Connector) (h : getConnectors [r1, r2, r3] = some cs) :
    cs.length = r1.rids.length + r2.rids.length + r3.rids.length ∧
    ∀ i (hi : i < cs.length),
      ((cs.get ⟨i, hi⟩).type ≠ "device" →
        ((cs.get ⟨i, hi⟩).rid, i) ∈ metaDataRequests cs) ∧
      ((cs.get ⟨i, hi⟩).rid, i) ∈ settingsRequests cs ∧
      ∀ method kw, routeUpdate cs (i : Int) method kw
        = some (cs.set i ((cs.get ⟨i, hi⟩).update method kw)) := by
  constructor
  · unfold getConnectors at h
    have hlen := optMap_length _ _ _ h
    rw [hlen]
    simp [Nat.add_assoc]
  · intro i hi
    exact ⟨fun hdev => mem_metaDataRequests cs i hi hdev,
           mem_settingsRequests cs i hi,
           fun method kw => routeUpdate_at cs i hi method kw⟩

/-- Witness for C1 at a concrete discovery run: one inlet, two outlets, no
devices. -/
theorem connector_discovery_correlation_witness :
    ([⟨"/model/inlet/I1", "inlet", "getSensors", Option.none, "I1", "I1"⟩,
      ⟨"/model/outlet/0", "outlet", "getSensors", Option.none, "0", "0"⟩,
      ⟨"/model/outlet/1", "outlet", "getSensors", Option.none, "1", "1"⟩]
      : List Connector).length = 1 + 2 + 0 ∧
    ("/model/inlet/I1", 0) ∈ metaDataRequests
      [⟨"/model/inlet/I1", "inlet", "getSensors", Option.none, "I1", "I1"⟩,
       ⟨"/model/outlet/0", "outlet", "getSensors", Option.none, "0", "0"⟩,
       ⟨"/model/outlet/1", "outlet", "getSensors", Option.none, "1", "1"⟩] ∧
    ("/model/inlet/I1", 0) ∈ settingsRequests
      [⟨"/model/inlet/I1", "inlet", "getSensors", Option.none, "I1", "I1"⟩,
       ⟨"/model/outlet/0", "outlet", "getSensors", Option.none, "0", "0"⟩,
       ⟨"/model/outlet/1", "outlet", "getSensors", Option.none, "1", "1"⟩] ∧
    routeUpdate
      [⟨"/model/inlet/I1", "inlet", "getSensors", Option.none, "I1", "I1"⟩,
       ⟨"/model/outlet/0", "outlet", "getSensors", Option.none, "0", "0"⟩,
       ⟨"/model/outlet/1", "outlet", "getSensors", Option.none, "1", "1"⟩]
      0 "metadata" Kwargs.empty
      = some (List.set
          [⟨"/model/inlet/I1", "inlet", "getSensors", Option.none, "I1", "I1"⟩,
           ⟨"/model/outlet/0", "outlet", "getSensors", Option.none, "0", "0"⟩,
           ⟨"/model/outlet/1", "outlet", "getSensors", Option.none, "1", "1"⟩]
          0 (Connector.update
            ⟨"/model/inlet/I1", "inlet", "getSensors", Option.none, "I1", "I1"⟩
            "metadata" Kwargs.empty)) := by
  have h := connector_discovery_correlation
    ⟨"inlet", ["/model/inlet/I1"]⟩
    ⟨"outlet", ["/model/outlet/0", "/model/outlet/1"]⟩
    ⟨"device", []⟩
    [⟨"/model/inlet/I1", "inlet", "getSensors", Option.none, "I1", "I1"⟩,
     ⟨"/model/outlet/0", "outlet", "getSensors", Option.none, "0", "0"⟩,
     ⟨"/model/outlet/1", "outlet", "getSensors", Option.none, "1", "1"⟩]
    (by decide)
  refine ⟨h.1, ?_, ?_, ?_⟩
  · exact (h.2 0 (by decide)).1 (by decide)
  · exact (h.2 0 (by decide)).2.1
  · exact (h.2 0 (by decide)).2.2 "metadata" Kwargs.empty

/-- C4: a transport failure during `read_sensors` is caught and only
logged: `read_sensors` returns normally with every sensor still cleared
(value `None`, timestamp the clear instant). -/
theorem read_sensors_transport_failure (isNumeric isState : String → Bool)
    (sensors : List Sensor) (now : Int)
    (transport : List ReadReq → Except String (List ReadResp)) (e : String)
    (h : transport (PDU.readQuery isNumeric isState
        (PDU.clear_sensors sensors now)) = Except.error e) :
    PDU.read_sensors isNumeric isState sensors now transport
      = Except.ok (PDU.clear_sensors sensors now) ∧
    ∀ s ∈ PDU.clear_sensors sensors now,
      s.value = PyVal.none ∧ s.timestamp = some now := by
  constructor
  · simp only [PDU.read_sensors, h]
  · intro s hs
    simp only [PDU.clear_sensors, List.mem_map] at hs
    obtain ⟨t, ht, rfl⟩ := hs
    exact ⟨rfl, rfl⟩

/-- Witness for C4: a transport that always raises, one sensor. -/
theorem read_sensors_transport_failure_witness :
    PDU.read_sensors (fun i => i = "numeric") (fun i => i = "state")
      [Sensor.init "r" "numeric" "Outlet 1" Option.none] 42
      (fun _ => Except.error "ConnectionError")
      = Except.ok (PDU.clear_sensors
          [Sensor.init "r" "numeric" "Outlet 1" Option.none] 42) :=
  (read_sensors_transport_failure (fun i => i = "numeric")
    (fun i => i = "state")
    [Sensor.init "r" "numeric" "Outlet 1" Option.none] 42
    (fun _ => Except.error "ConnectionError") "ConnectionError" rfl).1

/-- Helper: the response loop raises `IndexError` whenever some
sub-response's correlation id maps to no list position. -/
theorem applyReadResponses_error (resps : List ReadResp) :
    ∀ sensors : List Sensor,
      (∃ r ∈ resps, pyIdx sensors.length r.id = Option.none) →
      applyReadResponses sensors resps
        = Except.error "IndexError: list index out of range" := by
  induction resps with
  | nil =>
    intro sensors h
    simp at h
  | cons r rs ih =>
    intro sensors h
    obtain ⟨r0, hmem, hbad⟩ := h
    rcases List.mem_cons.mp hmem with heq | hmem2
    · subst heq
      simp [applyReadResponses, hbad]
    · cases hj : pyIdx sensors.length r.id with
      | none => simp [applyReadResponses, hj]
      | some j =>
        simp only [applyReadResponses, hj]
        exact ih _ ⟨r0, hmem2, by simpa [List.length_set] using hbad⟩

/-- C5 counterexample: with a single sensor, a sub-response whose
correlation id is `1` (out of range) makes `read_sensors` raise an
uncaught `IndexError` — the response is not dropped and the cycle does not
return normally. -/
theorem read_sensors_bad_id_counterexample :
    PDU.read_sensors (fun i => i = "numeric") (fun _ => false)
      [Sensor.init "r" "numeric" "Outlet 1" Option.none] 42
      (fun _ => Except.ok [{ id := 1, value := PyVal.num 5, timestamp := 100 }])
      = Except.error "IndexError: list index out of range" := rfl

/-- C5 (amended): a sub-response whose correlation id does not map to a
known position (Python list indexing, negative wrap-around included) is not
dropped: the `try` block only guards the send, so the response loop raises
an uncaught `IndexError` and `read_sensors` propagates it instead of
returning normally. -/
theorem read_sensors_bad_id (isNumeric isState : String → Bool)
    (sensors : List Sensor) (now : Int)
    (transport : List ReadReq → Except String (List ReadResp))
    (resps : List ReadResp)
    (hok : transport (PDU.readQuery isNumeric isState
        (PDU.clear_sensors sensors now)) = Except.ok resps)
    (hbad : ∃ r ∈ resps, pyIdx sensors.length r.id = Option.none) :
    PDU.read_sensors isNumeric isState sensors now transport
      = Except.error "IndexError: list index out of range" := by
  simp only [PDU.read_sensors, hok]
  apply applyReadResponses_error
  obtain ⟨r0, hm, hb⟩ := hbad
  exact ⟨r0, hm, by simpa [PDU.clear_sensors] using hb⟩

/-- Witness for the amended C5: two sensors, one response with id 5. -/
theorem read_sensors_bad_id_witness :
    PDU.read_sensors (fun i => i = "numeric") (fun _ => false)
      [Sensor.init "a" "numeric" "Outlet 1" Option.none,
       Sensor.init "b" "numeric" "Outlet 2" Option.none] 0
      (fun _ => Except.ok [{ id := 5, value := PyVal.num 3, timestamp := 9 }])
      = Except.error "IndexError: list index out of range" :=
  read_sensors_bad_id (fun i => i = "numeric") (fun _ => false)
    [Sensor.init "a" "numeric" "Outlet 1" Option.none,
     Sensor.init "b" "numeric" "Outlet 2" Option.none] 0
    (fun _ => Except.ok [{ id := 5, value := PyVal.num 3, timestamp := 9 }])
    [{ id := 5, value := PyVal.num 3, timestamp := 9 }] rfl
    ⟨{ id := 5, value := PyVal.num 3, timestamp := 9 }, by decide, by decide⟩

/-- C6 (code bug): for a scheme-less address the stored location keeps no
scheme — the fresh namedtuple returned by
`self.location._replace(scheme='http')` is discarded — and the defaulted
name is the empty `netloc`, not the host; with an explicit scheme the name
defaulting does work. -/
theorem pdu_init_scheme_not_defaulted :
    (PDU.init "pdu.example.com" Option.none).location = "pdu.example.com" ∧
    (PDU.init "pdu.example.com" Option.none).name = "" ∧
    (urlparse (PDU.init "pdu.example.com" Option.none).location).scheme
      ≠ "http" ∧
    (PDU.init "http://pdu.example.com" Option.none).name
      = "pdu.example.com" := by
  exact ⟨by decide, by decide, by decide, by decide⟩

end Raritan
